import Mathlib

/-!
Verification of the download front-end (`thehonoredonethe320kba.py`).

The file shallowly embeds the command-assembly function
`DownloadWorker.build_cmd`, the progress-line matching and the outcome
logic of `DownloadWorker.run`, and the URL validation of
`DarkBlackUI.validate_inputs`.  Strings are modelled with Lean `String`
(ASCII behaviour of `str.lower`, `str.upper`, `str.strip`, `str.isdigit`
and the regex class `\d`), the process exit status as `Int`, and the
cooperative stop flag as the list of values the worker observes, one per
line read.
-/

/-- ASCII decimal digit test; models the regex class `\d` and the
per-character test of `str.isdigit` for the ASCII strings this program
handles. -/
def isDigitCh (c : Char) : Bool :=
  decide (48 ≤ c.toNat) && decide (c.toNat ≤ 57)

/-- Whitespace as Python `\s` / `str.strip` see it (ASCII range):
space, tab, newline, carriage return, vertical tab, form feed. -/
def pySpace (c : Char) : Bool :=
  c = ' ' || c = '\t' || c = '\n' || c = '\r' || c = '\x0b' || c = '\x0c'

/-- Python `str.strip()` with no argument: drop leading and trailing
whitespace. -/
def pyStrip (s : String) : String :=
  String.mk (((s.data.dropWhile pySpace).reverse.dropWhile pySpace).reverse)

/-- Python `str.rstrip()`: drop trailing whitespace. -/
def pyRstrip (s : String) : String :=
  String.mk ((s.data.reverse.dropWhile pySpace).reverse)

/-- Python `" ".join(l)` (plain separator join). -/
def pyJoin (sep : String) : List String → String
  | [] => ""
  | [x] => x
  | x :: y :: xs => x ++ sep ++ pyJoin sep (y :: xs)

/-- Python truthiness of strings used in `a or b`: an empty string picks
the right operand. -/
def pyOrS (a b : String) : String := if a = "" then b else a

/-- Python `str.isdigit()` guarded by the truthiness check the source
performs first (`s and s.isdigit()`): non-empty and all digits. -/
def pyIsDigit (s : String) : Bool :=
  !s.data.isEmpty && s.data.all isDigitCh

/-- `pathlib` join `dir / name` for a relative `name`, rendered with a
single separator as `str()` does on POSIX. -/
def pathJoin (dir name : String) : String := dir ++ "/" ++ name

/-- ASCII lower-casing of one character, as Python `str.lower` acts on
the ASCII option strings this program compares. -/
def lowerCh (c : Char) : Char :=
  if 65 ≤ c.toNat ∧ c.toNat ≤ 90 then Char.ofNat (c.toNat + 32) else c

/-- Python `str.lower()` (ASCII range). -/
def pyLower (s : String) : String := String.mk (s.data.map lowerCh)

/-- ASCII upper-casing of one character, as Python `str.upper` acts on
the ASCII option strings this program compares. -/
def upperCh (c : Char) : Char :=
  if 97 ≤ c.toNat ∧ c.toNat ≤ 122 then Char.ofNat (c.toNat - 32) else c

/-- Python `str.upper()` (ASCII range). -/
def pyUpper (s : String) : String := String.mk (s.data.map upperCh)

/-- Python `str.startswith(pat)`: the first `len(pat)` characters equal
`pat`. -/
def pyStartsWith (s pat : String) : Bool :=
  decide (s.data.take pat.data.length = pat.data)

/-- Python `c in s` for a single character. -/
def pyContains (s : String) (c : Char) : Bool := s.data.contains c

/-- `sys.executable`: the interpreter path that heads every built
command.  Its concrete value depends on the environment and plays no
role in any claim; a fixed representative is used. -/
def sys_executable : String := "python3"

/-- `DEFAULT_TEMPLATE` from the source. -/
def DEFAULT_TEMPLATE : String := "%(title)s.%(ext)s"

/-- `VIDEO_QUALITIES` from the source. -/
def VIDEO_QUALITIES : List String :=
  ["Best", "8K", "4K", "1440p", "1080p", "720p", "480p", "360p"]

/-- `QUALITY_TO_HEIGHT` from the source, as an association list; the
Python `dict.get` is `List.lookup`. -/
def QUALITY_TO_HEIGHT : List (String × String) :=
  [("8K", "4320"), ("4K", "2160"), ("1440p", "1440"), ("1080p", "1080"),
   ("720p", "720"), ("480p", "480"), ("360p", "360")]

/-- `VIDEO_CONTAINERS` from the source. -/
def VIDEO_CONTAINERS : List String := ["mp4", "webm"]

/-- `AUDIO_FORMATS` from the source. -/
def AUDIO_FORMATS : List String := ["mp3", "m4a", "opus", "ogg", "flac", "wav"]

/-- `AUDIO_BITRATES` from the source. -/
def AUDIO_BITRATES : List String := ["128", "192", "256", "320"]

/-- The `DownloadConfig` dataclass.  `out_dir` (a `pathlib.Path`) is
kept as its string rendering. -/
structure DownloadConfig where
  url : String
  mode : String
  video_quality : String
  video_container : String
  audio_format : String
  audio_bitrate : String
  sample_rate : String
  channels : String
  mp3_normalize : Bool
  flac_comp_level : Int
  ogg_quality : String
  aac_profile : String
  out_dir : String
  allow_playlist : Bool
  force_single : Bool
  name_template : String
  ffmpeg_extra : String
  meta_artist : String
  meta_album : String
  meta_title_override : String
deriving Repr, DecidableEq

/-- The playlist flag chosen on line 68 of the source:
`"--yes-playlist" if allow_playlist and not force_single else "--no-playlist"`. -/
def playlistFlag (cfg : DownloadConfig) : String :=
  if cfg.allow_playlist && !cfg.force_single then "--yes-playlist" else "--no-playlist"

/-- The output template of lines 69–72: a non-blank title override wins
over the filename template; an empty template falls back to
`DEFAULT_TEMPLATE`. -/
def outTemplate (cfg : DownloadConfig) : String :=
  if pyStrip cfg.meta_title_override ≠ "" then
    pathJoin cfg.out_dir (pyStrip cfg.meta_title_override ++ ".%(ext)s")
  else
    pathJoin cfg.out_dir (pyOrS cfg.name_template DEFAULT_TEMPLATE)

/-- Lines 76–77: artist metadata tokens. -/
def metaArtistArgs (cfg : DownloadConfig) : List String :=
  if pyStrip cfg.meta_artist ≠ "" then
    ["-metadata", "artist=" ++ pyStrip cfg.meta_artist]
  else []

/-- Lines 78–79: album metadata tokens. -/
def metaAlbumArgs (cfg : DownloadConfig) : List String :=
  if pyStrip cfg.meta_album ≠ "" then
    ["-metadata", "album=" ++ pyStrip cfg.meta_album]
  else []

/-- Lines 80–81: title metadata tokens. -/
def metaTitleArgs (cfg : DownloadConfig) : List String :=
  if pyStrip cfg.meta_title_override ≠ "" then
    ["-metadata", "title=" ++ pyStrip cfg.meta_title_override]
  else []

/-- Lines 85–86: loudness normalization for mp3. -/
def mp3NormArgs (cfg : DownloadConfig) : List String :=
  if pyLower cfg.audio_format = "mp3" && cfg.mp3_normalize then
    ["-filter:a", "loudnorm"]
  else []

/-- Lines 87–88: flac compression level. -/
def flacArgs (cfg : DownloadConfig) : List String :=
  if pyLower cfg.audio_format = "flac" then
    ["-compression_level", toString cfg.flac_comp_level]
  else []

/-- Lines 89–92: ogg/opus quality, stripping the leading `q`. -/
def oggQualityArgs (cfg : DownloadConfig) : List String :=
  if pyLower cfg.audio_format = "ogg" || pyLower cfg.audio_format = "opus" then
    if pyStartsWith (pyLower cfg.ogg_quality) "q" then
      ["-q:a", (pyLower cfg.ogg_quality).drop 1]
    else []
  else []

/-- Lines 93–98: m4a AAC profile mapping. -/
def aacProfileArgs (cfg : DownloadConfig) : List String :=
  if pyLower cfg.audio_format = "m4a" then
    if pyUpper cfg.aac_profile = "LC" then ["-profile:a", "aac_low"]
    else if pyUpper cfg.aac_profile = "HE" then ["-profile:a", "aac_he"]
    else []
  else []

/-- Lines 99–100: sample rate, only when the string is a non-empty
digit string. -/
def sampleRateArgs (cfg : DownloadConfig) : List String :=
  if pyIsDigit cfg.sample_rate then ["-ar", cfg.sample_rate] else []

/-- Lines 101–102: channel count for mono/stereo. -/
def channelArgs (cfg : DownloadConfig) : List String :=
  if cfg.channels = "mono" || cfg.channels = "stereo" then
    ["-ac", if cfg.channels = "mono" then "1" else "2"]
  else []

/-- The audio-mode transcoder tokens of lines 83–102, in source order. -/
def ffAudioArgs (cfg : DownloadConfig) : List String :=
  mp3NormArgs cfg ++ flacArgs cfg ++ oggQualityArgs cfg ++ aacProfileArgs cfg ++
    sampleRateArgs cfg ++ channelArgs cfg

/-- Lines 104–105: the free-form extra arguments, one trailing token
when non-blank. -/
def extraArgs (cfg : DownloadConfig) : List String :=
  if pyStrip cfg.ffmpeg_extra ≠ "" then [pyStrip cfg.ffmpeg_extra] else []

/-- The complete `ff_args` list of lines 75–105: metadata, then the
audio tokens when the mode is `"audio"`, then the extra token. -/
def ffArgs (cfg : DownloadConfig) : List String :=
  metaArtistArgs cfg ++ metaAlbumArgs cfg ++ metaTitleArgs cfg ++
    (if cfg.mode = "audio" then ffAudioArgs cfg else []) ++ extraArgs cfg

/-- Lines 107–108: `--postprocessor-args` with the space-joined tokens,
attached only when the token list is non-empty. -/
def ppArgs (cfg : DownloadConfig) : List String :=
  if ffArgs cfg = [] then [] else ["--postprocessor-args", pyJoin " " (ffArgs cfg)]

/-- Lines 110–128: the mode-dependent format selection. -/
def formatArgs (cfg : DownloadConfig) : List String :=
  if cfg.mode = "audio" then
    ["-f", "bestaudio/best", "--extract-audio",
     "--audio-format", pyLower cfg.audio_format,
     "--audio-quality", cfg.audio_bitrate ++ "k"]
  else
    if cfg.video_quality = "Best" then
      ["-f", "bestvideo+bestaudio/best",
       "--merge-output-format", pyLower cfg.video_container]
    else
      match QUALITY_TO_HEIGHT.lookup cfg.video_quality with
      | some h =>
        ["-f", "bestvideo[height<=" ++ h ++ "]+bestaudio/best[height<=" ++ h ++ "]",
         "--merge-output-format", pyLower cfg.video_container]
      | none =>
        ["-f", "bestvideo+bestaudio/best",
         "--merge-output-format", pyLower cfg.video_container]

/-- The fixed head of the command plus playlist flag, output template
and post-processing arguments (lines 67–108). -/
def cmdPre (cfg : DownloadConfig) : List String :=
  [sys_executable, "-m", "yt_dlp", "--newline", playlistFlag cfg,
   "-o", outTemplate cfg] ++ ppArgs cfg

/-- `DownloadWorker.build_cmd` (lines 66–131): head, playlist flag,
output template, optional post-processing arguments, format selection,
and the trimmed URL as final positional argument. -/
def build_cmd (cfg : DownloadConfig) : List String :=
  cmdPre cfg ++ formatArgs cfg ++ [pyStrip cfg.url]

/-- The tail of the progress pattern after `\[download\]\s+` has
consumed at least one whitespace: a maximal digit run (`takeWhile` /
`dropWhile` realise the greedy `\d+`), an optional fraction `\.\d+`,
then the literal `%`.  Returns the integer and fraction digit lists of
the captured group.  For this pattern greedy matching without
backtracking coincides with the regex engine: after a maximal digit run
the next character is never a digit, so shrinking a run can never let
the following `.` or `%` succeed. -/
def matchTail (cs1 : List Char) : Option (List Char × List Char) :=
  match cs1.takeWhile isDigitCh, cs1.dropWhile isDigitCh with
  | [], _ => none
  | ip, '.' :: r2 =>
    (match r2.takeWhile isDigitCh, r2.dropWhile isDigitCh with
     | [], _ => none
     | fp, '%' :: _ => some (ip, fp)
     | _, _ => none)
  | ip, '%' :: _ => some (ip, [])
  | _, _ => none

/-- One attempt of the progress pattern `\s+(\d+(?:\.\d+)?)%` at the
position just after a literal `[download]`: at least one whitespace,
then the numeric tail. -/
def matchNumPercent (cs : List Char) : Option (List Char × List Char) :=
  match cs with
  | [] => none
  | c :: rest =>
    if pySpace c then matchTail (rest.dropWhile pySpace) else none

/-- Literal matcher: consume the pattern characters, returning the
remainder on success. -/
def matchLit : List Char → List Char → Option (List Char)
  | [], cs => some cs
  | _ :: _, [] => none
  | p :: ps, c :: cs => if c = p then matchLit ps cs else none

/-- `re.search` of `\[download\]\s+(\d+(?:\.\d+)?)%` (line 154): scan
start positions left to right; a successful match must begin with the
literal `[download]`. -/
def searchDownload : List Char → Option (List Char × List Char)
  | [] => none
  | c :: cs =>
    match matchLit ("[download]".data) (c :: cs) with
    | some rest =>
      match matchNumPercent rest with
      | some g => some g
      | none => searchDownload cs
    | none => searchDownload cs

/-- Numeric value of a digit character. -/
def digitVal (c : Char) : Nat := c.toNat - 48

/-- Value of a digit string, as `int` reads it. -/
def natOfDigits (ds : List Char) : Nat :=
  ds.foldl (fun n c => n * 10 + digitVal c) 0

/-- The exact value of the captured decimal numeral `ip.fp`, the number
`float(...)` parses on line 169.  The decimal value is represented
exactly as a rational; the claims never depend on the sub-integer
rounding of the binary double. -/
def groupValue (ip fp : List Char) : Rat :=
  (natOfDigits ip : Rat) + (natOfDigits fp : Rat) / ((10 : Rat) ^ fp.length)

/-- `int(...)` applied to the non-negative parsed value: truncation
toward zero, which for non-negative values is the floor. -/
def intOfPyFloat (q : Rat) : Int := Int.floor q

/-- `min(max(percent, 0), 100)` from line 170. -/
def clamp01 (p : Int) : Int := min (max p 0) 100

/-- The percent reported for one (already `rstrip`-ed) line: the
clamped truncation of the captured number on a match, nothing
otherwise (lines 166–172). -/
def parsePercent (line : String) : Option Int :=
  match searchDownload line.data with
  | some (ip, fp) => some (clamp01 (intOfPyFloat (groupValue ip fp)))
  | none => none

/-- The notifications the worker can deliver: the three Qt signals
`progress(int)`, `log_line(str)` and `finished(bool, str)`. -/
inductive Event where
  | progress (p : Int)
  | logLine (s : String)
  | finished (ok : Bool) (msg : String)
deriving Repr, DecidableEq

/-- The signals emitted while handling one line of process output
(lines 164–172): the stripped line is always forwarded, then a progress
value when the pattern matches. -/
def lineEvents (raw : String) : List Event :=
  Event.logLine (pyRstrip raw) ::
    (match parsePercent (pyRstrip raw) with
     | some p => [Event.progress p]
     | none => [])

/-- The value of the `_stop` flag observed at iteration `i`, given the
sequence of observed values (one per line read; beyond the recorded
sequence the flag was never set). -/
def stopAt : List Bool → Nat → Bool
  | [], _ => false
  | b :: _, 0 => b
  | _ :: bs, n + 1 => stopAt bs n

/-- The reading loop of lines 156–172: for each line first check the
stop flag; when set, emit the canceled outcome and finish (the flag
`true` in the second component records cancellation, which also
triggers `proc.terminate()`); otherwise forward the line and any
percent, then continue. -/
def readLoop (stops : List Bool) : List String → Nat → List Event × Bool
  | [], _ => ([], false)
  | l :: ls, i =>
    if stopAt stops i then
      ([Event.finished false "Download canceled."], true)
    else
      (lineEvents l ++ (readLoop stops ls (i + 1)).1, (readLoop stops ls (i + 1)).2)

/-- Line 145 quoting: wrap an argument in quotes when it contains a
space. -/
def quoteIfSpace (c : String) : String :=
  if pyContains c ' ' then "\"" ++ c ++ "\"" else c

/-- The two log lines emitted before the launch (lines 144–145). -/
def cmdEcho (cmd : List String) : List Event :=
  [Event.logLine "Command:", Event.logLine (pyJoin " " (cmd.map quoteIfSpace))]

/-- Environment of one `run` invocation: whether the output directory
could be created, whether the process could be started, the exception
text for either failure, the lines the process emitted, the observed
stop-flag values, and the exit code `proc.wait()` returned. -/
structure RunInput where
  mkdirOk : Bool
  spawnOk : Bool
  errText : String
  lines : List String
  stops : List Bool
  exitCode : Int
deriving Repr, DecidableEq

/-- What a `run` invocation produced: the emitted signals in order,
whether a process was spawned, and whether `proc.terminate()` was
requested. -/
structure RunResult where
  events : List Event
  spawned : Bool
  terminated : Bool
deriving Repr, DecidableEq

/-- `DownloadWorker.run` (lines 133–182): reject a blank URL before
anything else; report directory-creation and spawn failures before any
process exists; otherwise stream the output through the reading loop
and, unless canceled, turn exit code 0 into a success with a final
`progress(100)` and any other code into a failure carrying the code. -/
def workerRun (cfg : DownloadConfig) (ri : RunInput) : RunResult :=
  if pyStrip cfg.url = "" then
    ⟨[Event.finished false "URL is required."], false, false⟩
  else if ri.mkdirOk = false then
    ⟨[Event.finished false ("Cannot create output folder: " ++ ri.errText)], false, false⟩
  else if ri.spawnOk = false then
    ⟨cmdEcho (build_cmd cfg) ++ [Event.finished false ("Failed to start yt-dlp: " ++ ri.errText)],
     false, false⟩
  else
    if (readLoop ri.stops ri.lines 0).2 then
      ⟨cmdEcho (build_cmd cfg) ++ (readLoop ri.stops ri.lines 0).1, true, true⟩
    else if ri.exitCode = 0 then
      ⟨cmdEcho (build_cmd cfg) ++ (readLoop ri.stops ri.lines 0).1 ++
         [Event.progress 100, Event.finished true "Download completed."], true, false⟩
    else
      ⟨cmdEcho (build_cmd cfg) ++ (readLoop ri.stops ri.lines 0).1 ++
         [Event.finished false ("yt-dlp exited with code " ++ toString ri.exitCode ++ ".")],
       true, false⟩

/-- Success detector on events: a `finished` signal with flag `true`. -/
def isSuccessEvent : Event → Bool
  | Event.finished true _ => true
  | _ => false

/-- No success signal anywhere in a list of events. -/
def noSuccessEvents (evs : List Event) : Bool :=
  evs.all fun e => !isSuccessEvent e

/-- The success/failure flag carried by a `finished` signal. -/
def finishedFlag : Event → Option Bool
  | Event.finished b _ => some b
  | _ => none

/-- The flag of the terminal notification of a run. -/
def terminalFlag (r : RunResult) : Option Bool :=
  r.events.getLast?.bind finishedFlag

/-- The text fields `DarkBlackUI.validate_inputs` reads. -/
structure UiFields where
  url_text : String
  mode_text : String
  video_quality_text : String
  video_container_text : String
  audio_format_text : String
  audio_bitrate_text : String
deriving Repr, DecidableEq

/-- `DarkBlackUI.validate_inputs` (lines 502–527): blank URL and a URL
without an `http://` or `https://` head are rejected, then the enum
selections of the active mode are checked.  (The final template
defaulting is a widget mutation with no effect on the result.) -/
def validate_inputs (u : UiFields) : Bool :=
  if pyStrip u.url_text = "" then false
  else if !(pyStartsWith (pyStrip u.url_text) "http://" ||
            pyStartsWith (pyStrip u.url_text) "https://") then false
  else if pyLower u.mode_text = "video" then
    if !(VIDEO_QUALITIES.contains u.video_quality_text) then false
    else if !(VIDEO_CONTAINERS.contains u.video_container_text) then false
    else true
  else
    if !(AUDIO_FORMATS.contains u.audio_format_text) then false
    else if !(AUDIO_BITRATES.contains u.audio_bitrate_text) then false
    else true

/-- `DarkBlackUI.start_download` returns before constructing any
`DownloadWorker` when validation fails (lines 553–555), so a worker is
started exactly when `validate_inputs` passes. -/
def ui_starts_worker (u : UiFields) : Bool := validate_inputs u

/-- A representative audio-mode configuration, used to instantiate the
conditional theorems at concrete inputs. -/
def cfgAudioA : DownloadConfig where
  url := "https://example.com/a"
  mode := "audio"
  video_quality := "1080p"
  video_container := "mp4"
  audio_format := "mp3"
  audio_bitrate := "320"
  sample_rate := "44100"
  channels := "stereo"
  mp3_normalize := true
  flac_comp_level := 5
  ogg_quality := "q5"
  aac_profile := "LC"
  out_dir := "out"
  allow_playlist := true
  force_single := false
  name_template := "%(title)s.%(ext)s"
  ffmpeg_extra := ""
  meta_artist := ""
  meta_album := ""
  meta_title_override := ""

/-- Like `cfgAudioA` but with different values in the video-only field
group, which an audio-mode run must ignore. -/
def cfgAudioB : DownloadConfig :=
  { cfgAudioA with video_quality := "8K", video_container := "webm" }

/-- A video-mode configuration with a named quality tier. -/
def cfgVideo1080 : DownloadConfig :=
  { cfgAudioA with mode := "video", video_quality := "1080p" }

/-- A configuration whose URL is blank after trimming. -/
def cfgBlankUrl : DownloadConfig := { cfgAudioA with url := "   " }

/-- A benign run environment: both pre-launch steps succeed, two output
lines, the stop flag never observed set, exit code 0. -/
def riOk : RunInput where
  mkdirOk := true
  spawnOk := true
  errText := ""
  lines := ["[download]  42.7% of 10MiB", "done"]
  stops := [false, false]
  exitCode := 0

/-- A run in which the stop flag is observed set while reading the
first line, after the process had already reported 99 percent. -/
def riCancel : RunInput where
  mkdirOk := true
  spawnOk := true
  errText := ""
  lines := ["[download]  99.0% of 10MiB"]
  stops := [true]
  exitCode := 0

/-- A run that ends with a nonzero exit code. -/
def riFail : RunInput where
  mkdirOk := true
  spawnOk := true
  errText := ""
  lines := []
  stops := []
  exitCode := 1

/-- UI fields whose URL has neither the `http://` nor the `https://`
head. -/
def uiBadUrl : UiFields where
  url_text := "ftp://example.com/x"
  mode_text := "Video"
  video_quality_text := "Best"
  video_container_text := "mp4"
  audio_format_text := "mp3"
  audio_bitrate_text := "320"

/-- A list that is empty or starts with a non-empty token.  All the
chunks assembled into `ff_args` have this shape, which is what makes
the space-joined string empty exactly when the token list is. -/
def headOk (l : List String) : Prop :=
  l = [] ∨ ∃ s t, l = s :: t ∧ s ≠ ""

lemma headOk_append {a b : List String} (ha : headOk a) (hb : headOk b) :
    headOk (a ++ b) := by
  rcases ha with rfl | ⟨s, t, rfl, hs⟩
  · simpa using hb
  · exact Or.inr ⟨s, t ++ b, by simp, hs⟩

lemma headOk_metaArtistArgs (cfg : DownloadConfig) : headOk (metaArtistArgs cfg) := by
  unfold metaArtistArgs; split
  · exact Or.inr ⟨_, _, rfl, by decide⟩
  · exact Or.inl rfl

lemma headOk_metaAlbumArgs (cfg : DownloadConfig) : headOk (metaAlbumArgs cfg) := by
  unfold metaAlbumArgs; split
  · exact Or.inr ⟨_, _, rfl, by decide⟩
  · exact Or.inl rfl

lemma headOk_metaTitleArgs (cfg : DownloadConfig) : headOk (metaTitleArgs cfg) := by
  unfold metaTitleArgs; split
  · exact Or.inr ⟨_, _, rfl, by decide⟩
  · exact Or.inl rfl

lemma headOk_ffAudioArgs (cfg : DownloadConfig) : headOk (ffAudioArgs cfg) := by
  unfold ffAudioArgs mp3NormArgs flacArgs oggQualityArgs aacProfileArgs sampleRateArgs channelArgs
  refine headOk_append (headOk_append (headOk_append (headOk_append (headOk_append ?_ ?_) ?_) ?_) ?_) ?_
  all_goals first
    | (repeat' split) <;> first
      | exact Or.inl rfl
      | exact Or.inr ⟨_, _, rfl, by decide⟩

lemma headOk_extraArgs (cfg : DownloadConfig) : headOk (extraArgs cfg) := by
  unfold extraArgs; split
  · next h => exact Or.inr ⟨_, _, rfl, h⟩
  · exact Or.inl rfl

lemma headOk_ffArgs (cfg : DownloadConfig) : headOk (ffArgs cfg) := by
  unfold ffArgs
  refine headOk_append (headOk_append (headOk_append (headOk_append
    (headOk_metaArtistArgs cfg) (headOk_metaAlbumArgs cfg)) (headOk_metaTitleArgs cfg)) ?_)
    (headOk_extraArgs cfg)
  split
  · exact headOk_ffAudioArgs cfg
  · exact Or.inl rfl

lemma ne_empty_length_pos {s : String} (h : s ≠ "") : 0 < s.length := by
  rcases Nat.eq_zero_or_pos s.length with h0 | h1
  · exfalso
    apply h
    apply String.ext
    have : s.data.length = 0 := h0
    simp [List.length_eq_zero.mp this]
  · exact h1

/-- The space-joined `ff_args` string is empty exactly when the token
list is empty. -/
lemma pyJoin_ffArgs_empty_iff (cfg : DownloadConfig) :
    pyJoin " " (ffArgs cfg) = "" ↔ ffArgs cfg = [] := by
  constructor
  · intro hj
    rcases headOk_ffArgs cfg with h | ⟨s, t, heq, hs⟩
    · exact h
    · exfalso
      rw [heq] at hj
      cases t with
      | nil => exact hs hj
      | cons y ys =>
        have hlen := congrArg String.length hj
        rw [show pyJoin " " (s :: y :: ys) = s ++ " " ++ pyJoin " " (y :: ys) from rfl] at hlen
        simp [String.length_append] at hlen
        have := ne_empty_length_pos hs
        have h1 : (" " : String).length = 1 := rfl
        omega
  · intro h; rw [h]; rfl

lemma digitVal_le_nine {c : Char} (h : isDigitCh c = true) : digitVal c ≤ 9 := by
  unfold isDigitCh at h
  simp only [Bool.and_eq_true, decide_eq_true_eq] at h
  unfold digitVal
  omega

lemma natOfDigits_foldl_lt (ds : List Char) (hds : ∀ c ∈ ds, isDigitCh c = true) :
    ∀ a : Nat, ds.foldl (fun n c => n * 10 + digitVal c) a < (a + 1) * 10 ^ ds.length := by
  induction ds with
  | nil => intro a; simp
  | cons c t ih =>
    intro a
    have hc : digitVal c ≤ 9 := digitVal_le_nine (hds c (List.mem_cons_self _ _))
    have ht : ∀ x ∈ t, isDigitCh x = true := fun x hx => hds x (List.mem_cons_of_mem _ hx)
    calc (c :: t).foldl (fun n c => n * 10 + digitVal c) a
        = t.foldl (fun n c => n * 10 + digitVal c) (a * 10 + digitVal c) := rfl
      _ < (a * 10 + digitVal c + 1) * 10 ^ t.length := ih ht _
      _ ≤ ((a + 1) * 10) * 10 ^ t.length := by
          apply Nat.mul_le_mul_right
          omega
      _ = (a + 1) * 10 ^ (c :: t).length := by
          simp [List.length_cons, pow_succ]
          ring

lemma natOfDigits_lt_pow (ds : List Char) (hds : ∀ c ∈ ds, isDigitCh c = true) :
    natOfDigits ds < 10 ^ ds.length := by
  have := natOfDigits_foldl_lt ds hds 0
  simpa [natOfDigits] using this

/-- Truncating the exactly-parsed decimal `ip.fp` yields the value of
its integer digits. -/
lemma intOfPyFloat_groupValue (ip fp : List Char)
    (hfp : ∀ c ∈ fp, isDigitCh c = true) :
    intOfPyFloat (groupValue ip fp) = (natOfDigits ip : Int) := by
  unfold intOfPyFloat groupValue
  have hpow : (0 : Rat) < (10 : Rat) ^ fp.length := by positivity
  have h0 : (0 : Rat) ≤ (natOfDigits fp : Rat) / ((10 : Rat) ^ fp.length) := by positivity
  have h1 : (natOfDigits fp : Rat) / ((10 : Rat) ^ fp.length) < 1 := by
    rw [div_lt_one hpow]
    have := natOfDigits_lt_pow fp hfp
    calc (natOfDigits fp : Rat) < ((10 ^ fp.length : Nat) : Rat) := by exact_mod_cast this
      _ = (10 : Rat) ^ fp.length := by push_cast; ring
  rw [Int.floor_eq_iff]
  constructor
  · push_cast
    linarith
  · push_cast
    linarith

lemma mem_takeWhile_pred {α : Type} {p : α → Bool} :
    ∀ (l : List α) (x : α), x ∈ l.takeWhile p → p x = true := by
  intro l
  induction l with
  | nil => intro x h; simp [List.takeWhile] at h
  | cons c t ih =>
    intro x h
    rw [List.takeWhile_cons] at h
    split at h
    · rcases List.mem_cons.mp h with rfl | hx
      · assumption
      · exact ih x hx
    · simp at h

lemma matchTail_digits (cs1 : List Char) (g : List Char × List Char)
    (h : matchTail cs1 = some g) :
    (∀ c ∈ g.1, isDigitCh c = true) ∧ (∀ c ∈ g.2, isDigitCh c = true) := by
  unfold matchTail at h
  split at h
  · exact absurd h (by simp)
  · split at h
    · exact absurd h (by simp)
    · cases Option.some.inj h
      exact ⟨fun c hc => mem_takeWhile_pred _ c hc, fun c hc => mem_takeWhile_pred _ c hc⟩
    · exact absurd h (by simp)
  · cases Option.some.inj h
    exact ⟨fun c hc => mem_takeWhile_pred _ c hc, fun c hc => by simp at hc⟩
  · exact absurd h (by simp)

lemma matchNumPercent_digits (cs : List Char) (g : List Char × List Char)
    (h : matchNumPercent cs = some g) :
    (∀ c ∈ g.1, isDigitCh c = true) ∧ (∀ c ∈ g.2, isDigitCh c = true) := by
  unfold matchNumPercent at h
  split at h
  · exact absurd h (by simp)
  · split at h
    · exact matchTail_digits _ _ h
    · exact absurd h (by simp)

lemma searchDownload_digits :
    ∀ (cs : List Char) (g : List Char × List Char), searchDownload cs = some g →
      (∀ c ∈ g.1, isDigitCh c = true) ∧ (∀ c ∈ g.2, isDigitCh c = true) := by
  intro cs
  induction cs with
  | nil => intro g h; simp [searchDownload] at h
  | cons c t ih =>
    intro g h
    rw [searchDownload] at h
    split at h
    · split at h
      · next hg =>
          cases Option.some.inj h
          exact matchNumPercent_digits _ _ hg
      · exact ih g h
    · exact ih g h

lemma stopAt_false_of_all_false {stops : List Bool}
    (h : ∀ b ∈ stops, b = false) : ∀ i, stopAt stops i = false := by
  induction stops with
  | nil => intro i; cases i <;> rfl
  | cons b bs ih =>
    intro i
    cases i with
    | zero => exact h b (List.mem_cons_self _ _)
    | succ n => exact ih (fun x hx => h x (List.mem_cons_of_mem _ hx)) n

lemma readLoop_no_cancel {stops : List Bool} (h : ∀ b ∈ stops, b = false) :
    ∀ (lines : List String) (i : Nat), (readLoop stops lines i).2 = false := by
  intro lines
  induction lines with
  | nil => intro i; rfl
  | cons l ls ih =>
    intro i
    simp [readLoop, stopAt_false_of_all_false h i, ih (i + 1)]

lemma readLoop_cancel_getLast {stops : List Bool} :
    ∀ (lines : List String) (i : Nat), (readLoop stops lines i).2 = true →
      (readLoop stops lines i).1.getLast? = some (Event.finished false "Download canceled.") := by
  intro lines
  induction lines with
  | nil => intro i h; simp [readLoop] at h
  | cons l ls ih =>
    intro i h
    rw [readLoop] at h ⊢
    by_cases hs : stopAt stops i = true
    · rw [if_pos hs]
      rfl
    · rw [if_neg hs] at h ⊢
      have hlast := ih (i + 1) h
      show (lineEvents l ++ (readLoop stops ls (i + 1)).1).getLast? = _
      rw [List.getLast?_append, hlast]
      rfl

lemma noSuccess_lineEvents (l : String) :
    ((lineEvents l).all fun e => !isSuccessEvent e) = true := by
  unfold lineEvents
  cases hp : parsePercent (pyRstrip l) <;> simp [hp, isSuccessEvent]

lemma noSuccess_readLoop {stops : List Bool} :
    ∀ (lines : List String) (i : Nat),
      ((readLoop stops lines i).1.all fun e => !isSuccessEvent e) = true := by
  intro lines
  induction lines with
  | nil => intro i; rfl
  | cons l ls ih =>
    intro i
    rw [readLoop]
    split
    · rfl
    · simp only [List.all_append]
      rw [noSuccess_lineEvents, ih (i + 1)]
      rfl

/-- C1: For a video-mode request the format-selector argument of the
built command is dictated by the tier map: a quality present in
`QUALITY_TO_HEIGHT` yields the selector whose video part and whose
post-`+` part both carry `height<=` the mapped pixel value, while
`"Best"` (absent from the map) yields the unconstrained
`bestvideo+bestaudio/best`; either way the selector is followed by
`--merge-output-format` with the requested container, then the URL. -/
theorem video_format_selector (cfg : DownloadConfig) (hm : cfg.mode ≠ "audio") :
    build_cmd cfg =
      cmdPre cfg ++
        ["-f",
         (match QUALITY_TO_HEIGHT.lookup cfg.video_quality with
          | some h => "bestvideo[height<=" ++ h ++ "]+bestaudio/best[height<=" ++ h ++ "]"
          | none => "bestvideo+bestaudio/best"),
         "--merge-output-format", pyLower cfg.video_container, pyStrip cfg.url] := by
  unfold build_cmd formatArgs
  rw [if_neg hm]
  by_cases hb : cfg.video_quality = "Best"
  · have hnone : QUALITY_TO_HEIGHT.lookup "Best" = none := by decide
    rw [if_pos hb, hb, hnone]
    simp
  · rw [if_neg hb]
    cases hq : QUALITY_TO_HEIGHT.lookup cfg.video_quality <;> simp [hq]

/-- Witness for C1 at the concrete configuration `cfgVideo1080`. -/
theorem video_format_selector_witness :
    build_cmd cfgVideo1080 =
      cmdPre cfgVideo1080 ++
        ["-f",
         (match QUALITY_TO_HEIGHT.lookup cfgVideo1080.video_quality with
          | some h => "bestvideo[height<=" ++ h ++ "]+bestaudio/best[height<=" ++ h ++ "]"
          | none => "bestvideo+bestaudio/best"),
         "--merge-output-format", pyLower cfgVideo1080.video_container,
         pyStrip cfgVideo1080.url] :=
  video_format_selector cfgVideo1080 (by decide)

/-- C7: A non-blank title override fixes the output template to
`<override>.%(ext)s` under the output directory, whatever filename
template is supplied; a blank override falls back to the filename
template, or to the default pattern when it is empty; the template is
argument 6 of the built command (the value following `-o`). -/
theorem title_override_template (cfg : DownloadConfig) (tpl : String) :
    outTemplate { cfg with name_template := tpl } =
      (if pyStrip cfg.meta_title_override = "" then
         pathJoin cfg.out_dir (if tpl = "" then DEFAULT_TEMPLATE else tpl)
       else pathJoin cfg.out_dir (pyStrip cfg.meta_title_override ++ ".%(ext)s")) ∧
    (build_cmd cfg)[5]? = some "-o" ∧
    (build_cmd cfg)[6]? = some (outTemplate cfg) := by
  refine ⟨?_, ?_, ?_⟩
  · unfold outTemplate pyOrS
    by_cases h : pyStrip cfg.meta_title_override = "" <;> simp [h]
  · simp [build_cmd, cmdPre]
  · simp [build_cmd, cmdPre]

/-- C8: The playlist-mode token of the built command (argument 4) is
`--yes-playlist` exactly when playlists are allowed and single-item
forcing is off, and `--no-playlist` in every other case; the chosen
token is an element of the command. -/
theorem playlist_flag_selection (cfg : DownloadConfig) :
    (build_cmd cfg)[4]? =
      some (if cfg.allow_playlist && !cfg.force_single then "--yes-playlist"
            else "--no-playlist") ∧
    (if cfg.allow_playlist && !cfg.force_single then "--yes-playlist"
     else "--no-playlist") ∈ build_cmd cfg := by
  refine ⟨rfl, List.getElem?_mem (l := build_cmd cfg) (n := 4) rfl⟩

/-- C10: `build_cmd` is a total function of any well-typed
configuration, ending in the trimmed URL; an ogg/opus quality value not
starting with `q` contributes no quality token, a non-digit sample rate
contributes no sample-rate token, and any mode other than `"audio"`
takes the video branch of the format selection. -/
theorem build_cmd_total_shape (cfg : DownloadConfig) :
    (build_cmd cfg).getLast? = some (pyStrip cfg.url) ∧
    ("-q:a" ∈ oggQualityArgs cfg ↔
      ((pyLower cfg.audio_format = "ogg" ∨ pyLower cfg.audio_format = "opus") ∧
        pyStartsWith (pyLower cfg.ogg_quality) "q" = true)) ∧
    (sampleRateArgs cfg = [] ↔ pyIsDigit cfg.sample_rate = false) ∧
    (formatArgs cfg)[2]? =
      some (if cfg.mode = "audio" then "--extract-audio" else "--merge-output-format") := by
  refine ⟨?_, ?_, ?_, ?_⟩
  · unfold build_cmd
    exact List.getLast?_concat _
  · unfold oggQualityArgs
    by_cases hf : pyLower cfg.audio_format = "ogg" ∨ pyLower cfg.audio_format = "opus"
    · by_cases hq : pyStartsWith (pyLower cfg.ogg_quality) "q" = true <;>
        simp [hf, hq]
    · simp [hf]
  · unfold sampleRateArgs
    by_cases hd : pyIsDigit cfg.sample_rate <;> simp [hd]
  · unfold formatArgs
    by_cases hm : cfg.mode = "audio"
    · simp [hm]
    · simp only [hm]
      by_cases hb : cfg.video_quality = "Best"
      · simp [hb, hm]
      · simp only [hb]
        cases hq : QUALITY_TO_HEIGHT.lookup cfg.video_quality <;> simp [hm, hq]

/-- C6: The transcoder argument list is assembled in the fixed order
artist, album, title, mode-specific audio tokens, trailing extra token,
and the space-joined string is attached behind `--postprocessor-args`
exactly when that string is non-empty. -/
theorem postproc_args_assembly (cfg : DownloadConfig) :
    ffArgs cfg =
      metaArtistArgs cfg ++ metaAlbumArgs cfg ++ metaTitleArgs cfg ++
        (if cfg.mode = "audio" then
           mp3NormArgs cfg ++ flacArgs cfg ++ oggQualityArgs cfg ++ aacProfileArgs cfg ++
             sampleRateArgs cfg ++ channelArgs cfg
         else []) ++ extraArgs cfg ∧
    build_cmd cfg =
      [sys_executable, "-m", "yt_dlp", "--newline", playlistFlag cfg, "-o", outTemplate cfg] ++
        (if pyJoin " " (ffArgs cfg) = "" then [] else
          ["--postprocessor-args", pyJoin " " (ffArgs cfg)]) ++
        formatArgs cfg ++ [pyStrip cfg.url] := by
  constructor
  · rfl
  · unfold build_cmd cmdPre ppArgs
    by_cases h : ffArgs cfg = []
    · rw [if_pos h, if_pos ((pyJoin_ffArgs_empty_iff cfg).mpr h)]
    · rw [if_neg h, if_neg (fun hj => h ((pyJoin_ffArgs_empty_iff cfg).mp hj))]

/-- C3: The build is blind to the inactive field group: two
configurations with the same mode that agree on every mode-independent
field and on the field group their shared mode activates produce the
same command, whatever the fields of the other group hold. -/
theorem mode_group_independence (c1 c2 : DownloadConfig)
    (hmode : c1.mode = c2.mode)
    (hurl : c1.url = c2.url)
    (hout : c1.out_dir = c2.out_dir)
    (hap : c1.allow_playlist = c2.allow_playlist)
    (hfs : c1.force_single = c2.force_single)
    (hnt : c1.name_template = c2.name_template)
    (hff : c1.ffmpeg_extra = c2.ffmpeg_extra)
    (hma : c1.meta_artist = c2.meta_artist)
    (hmb : c1.meta_album = c2.meta_album)
    (hmt : c1.meta_title_override = c2.meta_title_override)
    (hgrp : if c1.mode = "audio" then
              c1.audio_format = c2.audio_format ∧ c1.audio_bitrate = c2.audio_bitrate ∧
              c1.sample_rate = c2.sample_rate ∧ c1.channels = c2.channels ∧
              c1.mp3_normalize = c2.mp3_normalize ∧ c1.flac_comp_level = c2.flac_comp_level ∧
              c1.ogg_quality = c2.ogg_quality ∧ c1.aac_profile = c2.aac_profile
            else
              c1.video_quality = c2.video_quality ∧ c1.video_container = c2.video_container) :
    build_cmd c1 = build_cmd c2 := by
  by_cases hm : c1.mode = "audio"
  · rw [if_pos hm] at hgrp
    obtain ⟨h1, h2, h3, h4, h5, h6, h7, h8⟩ := hgrp
    have hm2 : c2.mode = "audio" := hmode ▸ hm
    simp [build_cmd, cmdPre, ppArgs, ffArgs, outTemplate, playlistFlag, formatArgs,
      metaArtistArgs, metaAlbumArgs, metaTitleArgs, ffAudioArgs, mp3NormArgs, flacArgs,
      oggQualityArgs, aacProfileArgs, sampleRateArgs, channelArgs, extraArgs,
      hm, hm2, hurl, hout, hap, hfs, hnt, hff, hma, hmb, hmt, h1, h2, h3, h4, h5, h6, h7, h8]
  · rw [if_neg hm] at hgrp
    obtain ⟨h1, h2⟩ := hgrp
    have hm2 : ¬(c2.mode = "audio") := hmode ▸ hm
    simp [build_cmd, cmdPre, ppArgs, ffArgs, outTemplate, playlistFlag, formatArgs,
      metaArtistArgs, metaAlbumArgs, metaTitleArgs, extraArgs,
      hm, hm2, hurl, hout, hap, hfs, hnt, hff, hma, hmb, hmt, h1, h2]

/-- Witness for C3: audio-mode configurations differing only in the
video field group build the identical command. -/
theorem mode_group_independence_witness : build_cmd cfgAudioA = build_cmd cfgAudioB :=
  mode_group_independence cfgAudioA cfgAudioB rfl rfl rfl rfl rfl rfl rfl rfl rfl rfl
    (by simp [cfgAudioA, cfgAudioB])

/-- C4: Handling a line always forwards the (right-stripped) line; when
the progress pattern matches, the captured number is truncated to its
integer digits and clamped into `[0, 100]` and that percent is
reported; when it does not match, no percent is reported; in
particular the sample line reports 42 and is forwarded unmodified.
The matcher and the numeric conversion are total, so no input line can
raise. -/
theorem progress_line_handling (line : String) :
    lineEvents line =
      Event.logLine (pyRstrip line) ::
        (match searchDownload (pyRstrip line).data with
         | some (ip, _) => [Event.progress (min (max ((natOfDigits ip : Int)) 0) 100)]
         | none => []) ∧
    lineEvents "[download]  42.7% of 10MiB" =
      [Event.logLine "[download]  42.7% of 10MiB", Event.progress 42] := by
  have main : ∀ l : String,
      lineEvents l =
        Event.logLine (pyRstrip l) ::
          (match searchDownload (pyRstrip l).data with
           | some (ip, _) => [Event.progress (min (max ((natOfDigits ip : Int)) 0) 100)]
           | none => []) := by
    intro l
    unfold lineEvents parsePercent
    cases hs : searchDownload (pyRstrip l).data with
    | none => rfl
    | some g =>
      obtain ⟨ip, fp⟩ := g
      have hd := searchDownload_digits _ _ hs
      have hfloor := intOfPyFloat_groupValue ip fp hd.2
      simp only [clamp01, hfloor]
  refine ⟨main line, ?_⟩
  rw [main "[download]  42.7% of 10MiB"]
  decide

/-- C5: When the stop flag is never observed set, the terminal events
are decided by the exit code alone: code 0 appends a final
`progress(100)` and the success outcome, whatever progress the stream
reported; any other code appends a failure outcome whose message
carries the numeric code. -/
theorem exit_code_outcome (cfg : DownloadConfig) (ri : RunInput)
    (hurl : pyStrip cfg.url ≠ "")
    (hmk : ri.mkdirOk = true) (hsp : ri.spawnOk = true)
    (hstop : ∀ b ∈ ri.stops, b = false) :
    (workerRun cfg ri).events =
      cmdEcho (build_cmd cfg) ++ (readLoop ri.stops ri.lines 0).1 ++
        (if ri.exitCode = 0 then
           [Event.progress 100, Event.finished true "Download completed."]
         else
           [Event.finished false ("yt-dlp exited with code " ++ toString ri.exitCode ++ ".")]) := by
  unfold workerRun
  rw [if_neg hurl, if_neg (by rw [hmk]; decide), if_neg (by rw [hsp]; decide),
    if_neg (by rw [readLoop_no_cancel hstop ri.lines 0]; decide)]
  by_cases hec : ri.exitCode = 0
  · rw [if_pos hec, if_pos hec]
  · rw [if_neg hec, if_neg hec]

/-- Witness for C5 at a concrete successful run. -/
theorem exit_code_outcome_witness :
    (workerRun cfgAudioA riOk).events =
      cmdEcho (build_cmd cfgAudioA) ++ (readLoop riOk.stops riOk.lines 0).1 ++
        (if riOk.exitCode = 0 then
           [Event.progress 100, Event.finished true "Download completed."]
         else
           [Event.finished false ("yt-dlp exited with code " ++ toString riOk.exitCode ++ ".")]) :=
  exit_code_outcome cfgAudioA riOk (by decide) rfl rfl (by decide)

/-- C2 (counterexample): the worker reports outcomes through a single
Boolean flag, and cancellation is emitted with the same flag value
`false` that every failure outcome carries (here compared against a
nonzero-exit failure run); the cancellation is therefore not a distinct
non-failure outcome kind — only its message text differs. -/
theorem cancel_flag_counterexample :
    (workerRun cfgAudioA riCancel).events.getLast? =
      some (Event.finished false "Download canceled.") ∧
    (workerRun cfgAudioA riFail).events.getLast? =
      some (Event.finished false "yt-dlp exited with code 1.") ∧
    terminalFlag (workerRun cfgAudioA riCancel) = some false ∧
    terminalFlag (workerRun cfgAudioA riFail) = some false := by
  refine ⟨?_, ?_, ?_, ?_⟩ <;> decide

/-- C2 (amended): whenever the stop flag is observed during the read
loop, the worker requests process termination and its final event is
`finished` with flag `false` and the message `"Download canceled."`,
and no success outcome is ever emitted, however much progress the
stream had reported.  The flag value is the one failure outcomes also
carry; the cancellation is distinguished only by its message. -/
theorem cancel_outcome (cfg : DownloadConfig) (ri : RunInput)
    (hurl : pyStrip cfg.url ≠ "")
    (hmk : ri.mkdirOk = true) (hsp : ri.spawnOk = true)
    (hstop : (readLoop ri.stops ri.lines 0).2 = true) :
    (workerRun cfg ri).terminated = true ∧
    (workerRun cfg ri).events.getLast? = some (Event.finished false "Download canceled.") ∧
    noSuccessEvents (workerRun cfg ri).events = true := by
  unfold workerRun
  rw [if_neg hurl, if_neg (by rw [hmk]; decide), if_neg (by rw [hsp]; decide), if_pos hstop]
  refine ⟨rfl, ?_, ?_⟩
  · show (cmdEcho (build_cmd cfg) ++ (readLoop ri.stops ri.lines 0).1).getLast? = _
    rw [List.getLast?_append, readLoop_cancel_getLast ri.lines 0 hstop]
    rfl
  · show noSuccessEvents (cmdEcho (build_cmd cfg) ++ (readLoop ri.stops ri.lines 0).1) = true
    unfold noSuccessEvents
    rw [List.all_append, noSuccess_readLoop ri.lines 0]
    rfl

/-- Witness for the amended C2 at a concrete canceled run. -/
theorem cancel_outcome_witness :
    (workerRun cfgAudioA riCancel).terminated = true ∧
    (workerRun cfgAudioA riCancel).events.getLast? =
      some (Event.finished false "Download canceled.") ∧
    noSuccessEvents (workerRun cfgAudioA riCancel).events = true :=
  cancel_outcome cfgAudioA riCancel (by decide) rfl rfl (by decide)

/-- C9: a blank URL makes the worker emit the failure outcome
immediately, before any process is spawned; and a URL carrying neither
the `http://` nor the `https://` head fails validation, so the UI
layer never starts a worker for it. -/
theorem url_validation_rejects (cfg : DownloadConfig) (ri : RunInput) (u : UiFields)
    (hblank : pyStrip cfg.url = "")
    (hpre1 : pyStartsWith (pyStrip u.url_text) "http://" = false)
    (hpre2 : pyStartsWith (pyStrip u.url_text) "https://" = false) :
    (workerRun cfg ri).spawned = false ∧
    (workerRun cfg ri).events = [Event.finished false "URL is required."] ∧
    validate_inputs u = false ∧
    ui_starts_worker u = false := by
  have hv : validate_inputs u = false := by
    unfold validate_inputs
    by_cases h0 : pyStrip u.url_text = ""
    · rw [if_pos h0]
    · rw [if_neg h0, hpre1, hpre2]
      rfl
  refine ⟨?_, ?_, hv, hv⟩
  · unfold workerRun
    rw [if_pos hblank]
  · unfold workerRun
    rw [if_pos hblank]

/-- Witness for C9: a whitespace-only URL and an `ftp://` URL, both
rejected. -/
theorem url_validation_rejects_witness :
    (workerRun cfgBlankUrl riOk).spawned = false ∧
    (workerRun cfgBlankUrl riOk).events = [Event.finished false "URL is required."] ∧
    validate_inputs uiBadUrl = false ∧
    ui_starts_worker uiBadUrl = false :=
  url_validation_rejects cfgBlankUrl riOk uiBadUrl (by decide) (by decide) (by decide)
